import Mathlib

/-!
Shallow embedding of `src/agent/main.py` (Docker AI Agent with n8n integration).

External collaborators are modelled as capability interfaces:
- the container runtime (`docker_client`) as a `DockerRuntime` record of
  effectful lookups returning `Except` (an exception becomes `Except.error`
  carrying `str(e)`);
- the language-model backend (`ollama.chat`) as oracle values/functions in
  `ChatEnv` (the first reply is a fixed value, the second a function of the
  message history actually sent);
- the webhook sink (`requests.post`) as a function argument whose outcome
  the code discards (python `try: requests.post(...) except: pass`).

The shared directory is a flat association list from the caller-supplied
filename (an opaque key, exactly the string given at upload) to an entry
that is either a regular file with its bytes or a non-file entry such as a
subdirectory. JSON response bodies are modelled by an explicit `Json` type,
and python's `json.dumps` by `Json.dumps` (default separators).
-/

namespace DockerAgent

/-- JSON values, for response bodies, webhook payloads and `json.dumps`. -/
inductive Json where
  | str : String → Json
  | num : Nat → Json
  | arr : List Json → Json
  | obj : List (String × Json) → Json

/-- Escape a character as python's `json.dumps` does (ASCII subset used here). -/
def jescape (c : Char) : String :=
  if c = '"' then "\\\""
  else if c = '\\' then "\\\\"
  else if c = '\n' then "\\n"
  else if c = '\t' then "\\t"
  else if c = '\r' then "\\r"
  else String.singleton c

/-- Escape a string as python's `json.dumps` does. -/
def jescapeStr (s : String) : String :=
  String.join (s.data.map jescape)

mutual
/-- `json.dumps` with python's default separators. -/
def Json.dumps : Json → String
  | Json.str s => "\"" ++ jescapeStr s ++ "\""
  | Json.num n => Nat.repr n
  | Json.arr xs => "[" ++ Json.dumpsArr xs ++ "]"
  | Json.obj fs => "\x7b" ++ Json.dumpsObj fs ++ "\x7d"

/-- Serialize array elements joined by `", "`. -/
def Json.dumpsArr : List Json → String
  | [] => ""
  | [x] => Json.dumps x
  | x :: y :: xs => Json.dumps x ++ ", " ++ Json.dumpsArr (y :: xs)

/-- Serialize object fields joined by `", "`, key and value separated by `": "`. -/
def Json.dumpsObj : List (String × Json) → String
  | [] => ""
  | [(k, v)] => "\"" ++ jescapeStr k ++ "\": " ++ Json.dumps v
  | (k, v) :: f :: fs =>
      "\"" ++ jescapeStr k ++ "\": " ++ Json.dumps v ++ ", " ++ Json.dumpsObj (f :: fs)
end

/-- Field lookup in a JSON object (none on non-objects or absent keys). -/
def Json.lookup : Json → String → Option Json
  | Json.obj fs, k => (fs.find? (fun p => p.1 == k)).map Prod.snd
  | _, _ => none

mutual
/-- Whether the JSON value mentions the number `n` anywhere. -/
def Json.hasNum : Json → Nat → Bool
  | Json.str _, _ => false
  | Json.num m, n => m == n
  | Json.arr xs, n => Json.hasNumArr xs n
  | Json.obj fs, n => Json.hasNumObj fs n

/-- `Json.hasNum` over array elements. -/
def Json.hasNumArr : List Json → Nat → Bool
  | [], _ => false
  | x :: xs, n => Json.hasNum x n || Json.hasNumArr xs n

/-- `Json.hasNum` over object fields. -/
def Json.hasNumObj : List (String × Json) → Nat → Bool
  | [], _ => false
  | (_, v) :: fs, n => Json.hasNum v n || Json.hasNumObj fs n
end

/-! ### Shared file store (`SHARED_DIR = Path("/app/shared")`) -/

/-- A directory entry: a regular file with its bytes, or a non-file entry
(e.g. a subdirectory), which `f.is_file()` rejects but `path.exists()` accepts. -/
inductive Entry where
  | file (content : List Nat)
  | dir
deriving DecidableEq

/-- The shared directory as a finite map from entry name to entry,
keyed by the exact string the caller supplied. -/
abbrev SharedDir := List (String × Entry)

/-- `(SHARED_DIR / name).exists()` resolved against the flat map: the entry
stored under `name`, if any. -/
def lookupEntry (fs : SharedDir) (name : String) : Option Entry :=
  (fs.find? (fun p => p.1 == name)).map Prod.snd

/-- Effect of `open(SHARED_DIR / name, "wb"); f.write(content)`: create or
truncate-overwrite the entry under exactly `name`. -/
def setEntry (fs : SharedDir) (name : String) (e : Entry) : SharedDir :=
  (name, e) :: fs.filter (fun p => p.1 != name)

/-- Well-formed directory: entry names are unique (as on a real filesystem). -/
def WFDir (fs : SharedDir) : Prop :=
  (fs.map Prod.fst).Nodup

/-- `list_shared_files`: `[f.name for f in SHARED_DIR.iterdir() if f.is_file()]`. -/
def list_shared_files (fs : SharedDir) : List String :=
  fs.filterMap (fun p => match p.2 with
    | Entry.file _ => some p.1
    | Entry.dir => none)

/-- One element of the `GET /files` listing: `{"name": f.name, "size": f.stat().st_size}`. -/
structure FileInfo where
  name : String
  size : Nat
deriving DecidableEq

/-- `list_files` (`GET /files`): name and size of each regular file. -/
def list_files (fs : SharedDir) : List FileInfo :=
  fs.filterMap (fun p => match p.2 with
    | Entry.file b => some ⟨p.1, b.length⟩
    | Entry.dir => none)

/-- Outcome of `GET /files/{filename}`: 404, or `FileResponse(file_path)`
serving whatever entry sits at that path. -/
inductive DownloadOutcome where
  | notFound
  | serve (e : Entry)
deriving DecidableEq

/-- `download_file`: 404 when `file_path.exists()` is false, else `FileResponse`. -/
def download_file (fs : SharedDir) (filename : String) : DownloadOutcome :=
  match lookupEntry fs filename with
  | none => DownloadOutcome.notFound
  | some e => DownloadOutcome.serve e

/-- `str(SHARED_DIR)`. -/
def SHARED_DIR : String := "/app/shared"

/-- `str(SHARED_DIR / name)` (POSIX join for a relative `name`). -/
def sharedPath (name : String) : String :=
  SHARED_DIR ++ "/" ++ name

/-- Result of a successful `POST /files/upload`: the updated directory, the
payload POSTed (best-effort) to `<base>/webhook/file-uploaded`, and the JSON
body returned to the caller. -/
structure UploadOut where
  fs : SharedDir
  payload : Json
  response : Json

/-- `upload_file` (`POST /files/upload`). Writing on top of an existing
non-file entry makes `open(..., "wb")` raise, caught by the handler's
`except` and surfaced as a 500 (`Except.error`). The webhook call's outcome
(`notify ...`) is discarded (`try: requests.post(...) except: pass`). -/
def upload_file (notify : String → Json → Except String Unit) (fs : SharedDir)
    (filename : String) (content : List Nat) : Except String UploadOut :=
  match lookupEntry fs filename with
  | some Entry.dir => Except.error "IsADirectoryError"
  | _ =>
    let fs' := setEntry fs filename (Entry.file content)
    let payload := Json.obj [("filename", Json.str filename),
                            ("size", Json.num content.length),
                            ("path", Json.str (sharedPath filename))]
    let _ := notify "/webhook/file-uploaded" payload
    Except.ok ⟨fs', payload,
      Json.obj [("message", Json.str ("File " ++ filename ++ " caricato")),
                ("path", Json.str (sharedPath filename))]⟩

/-! ### Container capability adapter (`docker_client`) -/

/-- A container as seen through the runtime: `c.name`, `c.status`,
`c.short_id`, and `c.image.tags`. -/
structure Container where
  name : String
  status : String
  short_id : String
  tags : List String
deriving DecidableEq

/-- One element of the `list_containers` result. -/
structure ContainerSummary where
  name : String
  status : String
  id : String
  image : String
deriving DecidableEq

/-- The container runtime capability: `containers.list(all=True)` as a list
(running and stopped alike), `containers.get(name)`, `container.start()` and
`container.stop()` as effectful calls whose raised exception, if any, is
carried as `Except.error (str e)`. -/
structure DockerRuntime where
  containers : List Container
  getC : String → Except String Container
  startE : String → Except String Unit
  stopE : String → Except String Unit

/-- `list_containers`: one summary per container, `image.tags[0]` or
`"unknown"` when the image has no tags. -/
def list_containers (rt : DockerRuntime) : List ContainerSummary :=
  rt.containers.map (fun c =>
    ⟨c.name, c.status, c.short_id,
     match c.tags with
     | [] => "unknown"
     | t :: _ => t⟩)

/-- `start_container`: `try` get then start, returning a confirmation;
`except Exception as e: return f"Errore: \x7bstr(e)\x7d"`. -/
def start_container (rt : DockerRuntime) (container_name : String) : String :=
  match rt.getC container_name with
  | Except.error e => "Errore: " ++ e
  | Except.ok _ =>
    match rt.startE container_name with
    | Except.error e => "Errore: " ++ e
    | Except.ok _ => "Container " ++ container_name ++ " avviato"

/-- `stop_container`: same shape as `start_container`, stop semantics. -/
def stop_container (rt : DockerRuntime) (container_name : String) : String :=
  match rt.getC container_name with
  | Except.error e => "Errore: " ++ e
  | Except.ok _ =>
    match rt.stopE container_name with
    | Except.error e => "Errore: " ++ e
    | Except.ok _ => "Container " ++ container_name ++ " fermato"

/-! ### Chat orchestrator (`POST /chat`) -/

/-- One tool call requested by the model: `tool_call["function"]["name"]`
and `tool_call["function"].get("arguments", \x7b\x7d)`. -/
structure ToolCall where
  name : String
  args : List (String × String)
deriving DecidableEq

/-- `args[k]` as an option; a missing required key is python's `KeyError`. -/
def getArg (args : List (String × String)) (k : String) : Option String :=
  (args.find? (fun p => p.1 == k)).map Prod.snd

/-- The four function names of the static tool registry (`tools`). -/
def registryNames : List String :=
  ["list_containers", "start_container", "stop_container", "list_shared_files"]

/-- `list_containers()` result as the python list of dicts it becomes in JSON. -/
def encodeSummary (s : ContainerSummary) : Json :=
  Json.obj [("name", Json.str s.name), ("status", Json.str s.status),
            ("id", Json.str s.id), ("image", Json.str s.image)]

/-- The `if func_name == ... elif ... else` dispatch chain of `chat`.
A required argument missing from `args` is a `KeyError`, which escapes to
the handler's outer `except` (modelled as `Except.error`). -/
def dispatchTool (rt : DockerRuntime) (fs : SharedDir) (tc : ToolCall) :
    Except String Json :=
  if tc.name = "list_containers" then
    Except.ok (Json.arr ((list_containers rt).map encodeSummary))
  else if tc.name = "start_container" then
    match getArg tc.args "container_name" with
    | none => Except.error "KeyError: container_name"
    | some n => Except.ok (Json.str (start_container rt n))
  else if tc.name = "stop_container" then
    match getArg tc.args "container_name" with
    | none => Except.error "KeyError: container_name"
    | some n => Except.ok (Json.str (stop_container rt n))
  else if tc.name = "list_shared_files" then
    Except.ok (Json.arr ((list_shared_files fs).map Json.str))
  else
    Except.ok (Json.str "Funzione non trovata")

/-- The `for tool_call in ...` loop: dispatch each call in order, appending
`(func_name, result)`; the first raised `KeyError` aborts the whole request. -/
def runTools (rt : DockerRuntime) (fs : SharedDir) :
    List ToolCall → Except String (List (String × Json))
  | [] => Except.ok []
  | tc :: rest =>
    match dispatchTool rt fs tc with
    | Except.error e => Except.error e
    | Except.ok r =>
      match runTools rt fs rest with
      | Except.error e => Except.error e
      | Except.ok rs => Except.ok ((tc.name, r) :: rs)

/-- The `results` python list (`[\x7b"function": ..., "result": ...\x7d, ...]`)
as a JSON value, as `json.dumps` and the HTTP response see it. -/
def encodeResults (results : List (String × Json)) : Json :=
  Json.arr (results.map (fun p =>
    Json.obj [("function", Json.str p.1), ("result", p.2)]))

/-- A chat message dict: role, content, and tool calls ([] models a missing
or empty `tool_calls` key — both are falsy in python). -/
structure Message where
  role : String
  content : String
  tool_calls : List ToolCall
deriving DecidableEq

/-- An `ollama.chat` return value: `response["message"]`. -/
structure Reply where
  message : Message
deriving DecidableEq

/-- `\x7b"role": "user", "content": request.message\x7d`. -/
def userMsg (m : String) : Message := ⟨"user", m, []⟩

/-- `\x7b"role": "tool", "content": json.dumps(results)\x7d`. -/
def toolMsg (results : List (String × Json)) : Message :=
  ⟨"tool", Json.dumps (encodeResults results), []⟩

/-- The environment a chat request runs against: the runtime and shared
directory behind the tools, the model's first reply, and the model's second
reply as a function of the history actually sent to it. -/
structure ChatEnv where
  rt : DockerRuntime
  fs : SharedDir
  reply1 : Reply
  reply2 : List Message → Reply

/-- A successful `POST /chat` outcome: the JSON body returned, and the
payload POSTed (best-effort) to `<base>/webhook/agent-action`, if any. -/
structure ChatOut where
  response : Json
  payload : Option Json

/-- `chat` (`POST /chat`). `if response["message"].get("tool_calls"):` is
python truthiness: an absent, `None` or empty list all take the plain
branch. Any exception in the flow becomes a 500 (`Except.error`); the
webhook call's outcome (`notify ...`) is discarded. -/
def chat (notify : String → Json → Except String Unit) (env : ChatEnv)
    (message : String) : Except String ChatOut :=
  if env.reply1.message.tool_calls = [] then
    Except.ok ⟨Json.obj [("response", Json.str env.reply1.message.content)], none⟩
  else
    match runTools env.rt env.fs env.reply1.message.tool_calls with
    | Except.error e => Except.error e
    | Except.ok results =>
      let final := env.reply2
        [userMsg message, env.reply1.message, toolMsg results]
      let payload := Json.obj [("event", Json.str "tool_executed"),
                              ("message", Json.str message),
                              ("results", encodeResults results)]
      let _ := notify "/webhook/agent-action" payload
      Except.ok ⟨Json.obj [("response", Json.str final.message.content),
                          ("tool_results", encodeResults results)],
                 some payload⟩

/-- The `ChatOut` the tool-assisted branch of `chat` builds for a given
results sequence: the second reply is taken on exactly the three-message
history `[user message, first reply message, tool(json.dumps results)]`,
its textual content becomes `response`, the results become `tool_results`,
and the webhook payload carries message and results. -/
def chatToolOut (env : ChatEnv) (msg : String)
    (results : List (String × Json)) : ChatOut :=
  ⟨Json.obj [("response", Json.str ((env.reply2
        [userMsg msg, env.reply1.message, toolMsg results]).message.content)),
      ("tool_results", encodeResults results)],
   some (Json.obj [("event", Json.str "tool_executed"),
                   ("message", Json.str msg),
                   ("results", encodeResults results)])⟩

/-! ### Concrete fixtures used by witness theorems -/

/-- A webhook sink that accepts every POST. -/
def wNotify : String → Json → Except String Unit := fun _ _ => Except.ok ()

/-- A webhook sink that fails every POST (receiver unreachable). -/
def wNotifyFail : String → Json → Except String Unit :=
  fun _ _ => Except.error "ConnectionError"

/-- A runtime with two containers (one stopped, one whose image has no
tags) in which every `get` fails as docker's NotFound does. -/
def wRT : DockerRuntime :=
  ⟨[⟨"web", "running", "abc123", ["nginx:latest"]⟩,
    ⟨"db", "exited", "def456", []⟩],
   fun n => Except.error ("404 Client Error: no such container: " ++ n),
   fun _ => Except.ok (),
   fun _ => Except.ok ()⟩

/-- A second-call oracle that always answers "done". -/
def wReply2 : List Message → Reply := fun _ => ⟨⟨"assistant", "done", []⟩⟩

/-- A chat environment whose first reply requests one `list_containers` call. -/
def wEnv : ChatEnv :=
  ⟨wRT, [], ⟨⟨"assistant", "", [⟨"list_containers", []⟩]⟩⟩, wReply2⟩

/-- A chat environment whose first reply requests an unknown function. -/
def wEnvUnknown : ChatEnv :=
  ⟨wRT, [], ⟨⟨"assistant", "", [⟨"frobnicate", []⟩]⟩⟩, wReply2⟩

/-- A chat environment whose first reply has no tool calls. -/
def wEnvPlain : ChatEnv :=
  ⟨wRT, [], ⟨⟨"assistant", "ciao", []⟩⟩, wReply2⟩

/-- A chat environment whose first reply requests two calls in order:
`stop_container(container_name="web")`, then an unknown function. -/
def wEnvTwo : ChatEnv :=
  ⟨wRT, [],
   ⟨⟨"assistant", "",
     [⟨"stop_container", [("container_name", "web")]⟩, ⟨"frobnicate", []⟩]⟩⟩,
   wReply2⟩

/-- The JSON value dispatching `list_containers` produces against `wRT`. -/
def wContainersJson : Json :=
  Json.arr
    [Json.obj [("name", Json.str "web"), ("status", Json.str "running"),
               ("id", Json.str "abc123"), ("image", Json.str "nginx:latest")],
     Json.obj [("name", Json.str "db"), ("status", Json.str "exited"),
               ("id", Json.str "def456"), ("image", Json.str "unknown")]]

/-! ### Helper lemmas -/

/-- After `setEntry fs n e`, looking up `n` finds exactly `e`. -/
theorem lookupEntry_setEntry_self (fs : SharedDir) (n : String) (e : Entry) :
    lookupEntry (setEntry fs n e) n = some e := by
  unfold lookupEntry setEntry
  rw [List.find?_cons_of_pos _ (by simp)]
  rfl

/-- `setEntry fs n e` leaves every other name's lookup unchanged. -/
theorem lookupEntry_setEntry_ne (fs : SharedDir) (n m : String) (e : Entry)
    (h : m ≠ n) : lookupEntry (setEntry fs n e) m = lookupEntry fs m := by
  unfold lookupEntry setEntry
  rw [List.find?_cons_of_neg _ (by simp [Ne.symm h])]
  induction fs with
  | nil => rfl
  | cons p t ih =>
    by_cases hk : p.1 = n
    · rw [List.filter_cons_of_neg (by simp [hk])]
      rw [List.find?_cons_of_neg _ (by simp [hk, Ne.symm h])]
      exact ih
    · rw [List.filter_cons_of_pos (by simp [hk])]
      by_cases hm : p.1 = m
      · rw [List.find?_cons_of_pos _ (by simp [hm]),
            List.find?_cons_of_pos _ (by simp [hm])]
      · rw [List.find?_cons_of_neg _ (by simp [hm]),
            List.find?_cons_of_neg _ (by simp [hm])]
        exact ih

/-- Every name listed by `list_files` is a key of the directory. -/
theorem list_files_name_mem (fs : SharedDir) :
    ∀ fi ∈ list_files fs, fi.name ∈ fs.map Prod.fst := by
  induction fs with
  | nil => intro fi hfi; simp [list_files] at hfi
  | cons p t ih =>
    intro fi hfi
    match hp : p.2 with
    | Entry.file b =>
      rw [list_files, List.filterMap_cons] at hfi
      simp only [hp] at hfi
      rcases List.mem_cons.mp hfi with h1 | h1
      · subst h1; simp
      · simp only [List.map_cons, List.mem_cons]
        exact Or.inr (ih fi h1)
    | Entry.dir =>
      rw [list_files, List.filterMap_cons] at hfi
      simp only [hp] at hfi
      simp only [List.map_cons, List.mem_cons]
      exact Or.inr (ih fi hfi)

/-- In a well-formed directory, a name whose entry is a non-file never
appears in the `list_files` output. -/
theorem list_files_not_dir_name (fs : SharedDir) (name : String)
    (hwf : WFDir fs) (hdir : lookupEntry fs name = some Entry.dir) :
    ∀ fi ∈ list_files fs, fi.name ≠ name := by
  induction fs with
  | nil => intro fi hfi; simp [list_files] at hfi
  | cons p t ih =>
    have hwf' : WFDir t := by
      have := hwf
      simp only [WFDir, List.map_cons, List.nodup_cons] at this
      exact this.2
    have hhead : p.1 ∉ t.map Prod.fst := by
      have := hwf
      simp only [WFDir, List.map_cons, List.nodup_cons] at this
      exact this.1
    intro fi hfi
    by_cases hk : p.1 = name
    · -- the head entry is the one `lookupEntry` finds, and it is a dir
      have hv : p.2 = Entry.dir := by
        unfold lookupEntry at hdir
        rw [List.find?_cons_of_pos _ (by simp [hk])] at hdir
        simpa using hdir
      rw [list_files, List.filterMap_cons, hv] at hfi
      intro hname
      exact hhead (hk ▸ hname ▸ list_files_name_mem t fi hfi)
    · -- `lookupEntry` skips the head
      have hdir' : lookupEntry t name = some Entry.dir := by
        unfold lookupEntry at hdir ⊢
        rwa [List.find?_cons_of_neg _ (by simp [hk])] at hdir
      match hp : p.2 with
      | Entry.file b =>
        rw [list_files, List.filterMap_cons] at hfi
        simp only [hp] at hfi
        rcases List.mem_cons.mp hfi with h1 | h1
        · subst h1; exact hk
        · exact ih hwf' hdir' fi h1
      | Entry.dir =>
        rw [list_files, List.filterMap_cons] at hfi
        simp only [hp] at hfi
        exact ih hwf' hdir' fi hfi

/-- A successful upload stores exactly `setEntry fs filename (file content)`,
with the payload and response the code builds. -/
theorem upload_file_ok (notify : String → Json → Except String Unit)
    (fs : SharedDir) (filename : String) (content : List Nat) (out : UploadOut)
    (h : upload_file notify fs filename content = Except.ok out) :
    out = ⟨setEntry fs filename (Entry.file content),
           Json.obj [("filename", Json.str filename),
                     ("size", Json.num content.length),
                     ("path", Json.str (sharedPath filename))],
           Json.obj [("message", Json.str ("File " ++ filename ++ " caricato")),
                     ("path", Json.str (sharedPath filename))]⟩ := by
  unfold upload_file at h
  match hl : lookupEntry fs filename with
  | none => rw [hl] at h; exact (Except.ok.inj h).symm
  | some (Entry.file b) => rw [hl] at h; exact (Except.ok.inj h).symm
  | some Entry.dir => rw [hl] at h; exact absurd h (by simp)

/-- Shape of a successful `runTools` run: one `(name, result)` pair per
tool call, in order, each result produced by `dispatchTool` on that call. -/
theorem runTools_ok_spec (rt : DockerRuntime) (fs : SharedDir) :
    ∀ (tcs : List ToolCall) (results : List (String × Json)),
      runTools rt fs tcs = Except.ok results →
      results.length = tcs.length ∧
      ∀ i (h1 : i < results.length) (h2 : i < tcs.length),
        (results.get ⟨i, h1⟩).1 = (tcs.get ⟨i, h2⟩).name ∧
        dispatchTool rt fs (tcs.get ⟨i, h2⟩) =
          Except.ok ((results.get ⟨i, h1⟩).2) := by
  intro tcs
  induction tcs with
  | nil =>
    intro results h
    unfold runTools at h
    have : results = [] := (Except.ok.inj h).symm
    subst this
    exact ⟨rfl, fun i h1 h2 => absurd h1 (by simp)⟩
  | cons tc rest ih =>
    intro results h
    unfold runTools at h
    match hd : dispatchTool rt fs tc with
    | Except.error e => rw [hd] at h; exact absurd h (by simp)
    | Except.ok r =>
      rw [hd] at h
      match hr : runTools rt fs rest with
      | Except.error e => rw [hr] at h; exact absurd h (by simp)
      | Except.ok rs =>
        rw [hr] at h
        have hres : results = (tc.name, r) :: rs := (Except.ok.inj h).symm
        subst hres
        obtain ⟨hlen, hpt⟩ := ih rs hr
        refine ⟨by simpa using hlen, ?_⟩
        intro i h1 h2
        match i with
        | 0 => exact ⟨rfl, hd⟩
        | Nat.succ j =>
          exact hpt j (Nat.lt_of_succ_lt_succ h1) (Nat.lt_of_succ_lt_succ h2)

/-! ### Claim theorems -/

/-- Claim C1: uploading bytes `B` under name `N` via `POST /files/upload`
(successfully) and then downloading `GET /files/N` returns exactly the
bytes `B`, and `GET /files` afterwards lists an entry with name `N` and
size `B.length`. -/
theorem c1_upload_download_roundtrip
    (notify : String → Json → Except String Unit) (fs : SharedDir)
    (N : String) (B : List Nat) (out : UploadOut)
    (h : upload_file notify fs N B = Except.ok out) :
    download_file out.fs N = DownloadOutcome.serve (Entry.file B) ∧
    (⟨N, B.length⟩ : FileInfo) ∈ list_files out.fs := by
  rcases upload_file_ok notify fs N B out h with rfl
  constructor
  · show download_file (setEntry fs N (Entry.file B)) N = _
    unfold download_file
    rw [lookupEntry_setEntry_self]
  · show _ ∈ list_files (setEntry fs N (Entry.file B))
    unfold list_files setEntry
    rw [List.filterMap_cons]
    simp

/-- Witness for C1: a concrete two-byte upload round-trips. -/
theorem c1_witness :
    download_file [("report.csv", Entry.file [104, 105])] "report.csv" =
        DownloadOutcome.serve (Entry.file [104, 105]) ∧
    (⟨"report.csv", 2⟩ : FileInfo) ∈
      list_files [("report.csv", Entry.file [104, 105])] :=
  c1_upload_download_roundtrip wNotify [] "report.csv" [104, 105]
    ⟨[("report.csv", Entry.file [104, 105])],
     Json.obj [("filename", Json.str "report.csv"), ("size", Json.num 2),
               ("path", Json.str "/app/shared/report.csv")],
     Json.obj [("message", Json.str "File report.csv caricato"),
               ("path", Json.str "/app/shared/report.csv")]⟩ rfl

/-- Claim C3: for every runtime and container name, `start_container` and
`stop_container` return a string — a confirmation on success or an
error-describing string on any failure — and never raise (they are total
functions into `String`); in particular a failed lookup yields the error
description. -/
theorem c3_start_stop_total (rt : DockerRuntime) (name : String) :
    (start_container rt name = "Container " ++ name ++ " avviato" ∨
      ∃ e, start_container rt name = "Errore: " ++ e) ∧
    (stop_container rt name = "Container " ++ name ++ " fermato" ∨
      ∃ e, stop_container rt name = "Errore: " ++ e) ∧
    (∀ e, rt.getC name = Except.error e →
      start_container rt name = "Errore: " ++ e ∧
      stop_container rt name = "Errore: " ++ e) := by
  refine ⟨?_, ?_, ?_⟩
  · unfold start_container
    cases h : rt.getC name with
    | error e => exact Or.inr ⟨e, rfl⟩
    | ok c =>
      cases h2 : rt.startE name with
      | error e => exact Or.inr ⟨e, rfl⟩
      | ok u => exact Or.inl rfl
  · unfold stop_container
    cases h : rt.getC name with
    | error e => exact Or.inr ⟨e, rfl⟩
    | ok c =>
      cases h2 : rt.stopE name with
      | error e => exact Or.inr ⟨e, rfl⟩
      | ok u => exact Or.inl rfl
  · intro e he
    unfold start_container stop_container
    rw [he]
    exact ⟨rfl, rfl⟩

/-- Witness for C3: an unknown container name yields the error string. -/
theorem c3_witness :
    start_container wRT "ghost" =
        "Errore: " ++ "404 Client Error: no such container: ghost" ∧
    stop_container wRT "ghost" =
        "Errore: " ++ "404 Client Error: no such container: ghost" :=
  (c3_start_stop_total wRT "ghost").2.2
    "404 Client Error: no such container: ghost" rfl

/-- Claim C9: `list_containers` returns one summary per container of the
runtime (stopped ones included — no status filter), each carrying the
container's name, status, short identifier, and head image tag, or
"unknown" when the image has no tags. -/
theorem c9_list_containers_shape (rt : DockerRuntime) :
    (list_containers rt).length = rt.containers.length ∧
    ∀ i (hi : i < (list_containers rt).length)
        (hc : i < rt.containers.length),
      ((list_containers rt).get ⟨i, hi⟩).name =
          (rt.containers.get ⟨i, hc⟩).name ∧
      ((list_containers rt).get ⟨i, hi⟩).status =
          (rt.containers.get ⟨i, hc⟩).status ∧
      ((list_containers rt).get ⟨i, hi⟩).id =
          (rt.containers.get ⟨i, hc⟩).short_id ∧
      ((rt.containers.get ⟨i, hc⟩).tags = [] →
        ((list_containers rt).get ⟨i, hi⟩).image = "unknown") ∧
      (∀ t ts, (rt.containers.get ⟨i, hc⟩).tags = t :: ts →
        ((list_containers rt).get ⟨i, hi⟩).image = t) := by
  constructor
  · simp [list_containers]
  · intro i hi hc
    have hg : (list_containers rt).get ⟨i, hi⟩ =
        (⟨(rt.containers.get ⟨i, hc⟩).name, (rt.containers.get ⟨i, hc⟩).status,
          (rt.containers.get ⟨i, hc⟩).short_id,
          match (rt.containers.get ⟨i, hc⟩).tags with
          | [] => "unknown"
          | t :: _ => t⟩ : ContainerSummary) := by
      simp [list_containers]
    rw [hg]
    refine ⟨rfl, rfl, rfl, ?_, ?_⟩
    · intro ht; rw [ht]
    · intro t ts ht; rw [ht]

/-- Witness for C9: against `wRT` the second (stopped, untagged) container
is listed with status "exited" and image "unknown". -/
theorem c9_witness :
    (list_containers wRT).length = wRT.containers.length ∧
    ((list_containers wRT).get ⟨1, by decide⟩).name = "db" ∧
    ((list_containers wRT).get ⟨1, by decide⟩).status = "exited" ∧
    ((list_containers wRT).get ⟨1, by decide⟩).image = "unknown" := by
  have h := c9_list_containers_shape wRT
  have h2 := h.2 1 (by decide) (by decide)
  exact ⟨h.1, h2.1, h2.2.1, h2.2.2.2.1 rfl⟩

/-- Claim C10: `GET /files/{filename}` answers 404 exactly when no entry
sits at that path; an existing non-file entry (e.g. a subdirectory) is not
reported NotFound, even though `GET /files` never lists it. -/
theorem c10_download_404_iff (fs : SharedDir) (name : String) :
    (download_file fs name = DownloadOutcome.notFound ↔
      lookupEntry fs name = none) ∧
    (WFDir fs → lookupEntry fs name = some Entry.dir →
      download_file fs name ≠ DownloadOutcome.notFound ∧
      ∀ fi ∈ list_files fs, fi.name ≠ name) := by
  constructor
  · constructor
    · intro hd
      unfold download_file at hd
      cases h : lookupEntry fs name with
      | none => rfl
      | some e => rw [h] at hd; exact absurd hd (by simp)
    · intro h
      unfold download_file
      rw [h]
  · intro hwf hdir
    constructor
    · unfold download_file
      rw [hdir]
      simp
    · exact list_files_not_dir_name fs name hwf hdir

/-- Witness for C10: a directory entry "d" is served rather than 404ed,
and the lone listed file is not named "d". -/
theorem c10_witness :
    download_file [("d", Entry.dir), ("a.txt", Entry.file [1])] "d" ≠
        DownloadOutcome.notFound ∧
    (⟨"a.txt", 1⟩ : FileInfo).name ≠ "d" := by
  have h := (c10_download_404_iff
    [("d", Entry.dir), ("a.txt", Entry.file [1])] "d").2
    (by unfold WFDir; decide) rfl
  exact ⟨h.1, h.2 ⟨"a.txt", 1⟩ (by decide)⟩

/-- Claim C2: a reply with no tool calls yields a response without a
`tool_results` key whose `response` is the reply's content; a reply with
exactly one known function yields `tool_results` of length 1 whose entry's
`function` equals the requested name; several requested calls are executed
sequentially in the order given, one result entry per call. -/
theorem c2_chat_tool_results (notify : String → Json → Except String Unit)
    (env : ChatEnv) (msg : String) :
    (env.reply1.message.tool_calls = [] →
      chat notify env msg = Except.ok
        ⟨Json.obj [("response", Json.str env.reply1.message.content)], none⟩ ∧
      ∀ out, chat notify env msg = Except.ok out →
        Json.lookup out.response "tool_results" = none ∧
        Json.lookup out.response "response" =
          some (Json.str env.reply1.message.content)) ∧
    (∀ tc r, env.reply1.message.tool_calls = [tc] →
      tc.name ∈ registryNames →
      dispatchTool env.rt env.fs tc = Except.ok r →
      chat notify env msg = Except.ok (chatToolOut env msg [(tc.name, r)]) ∧
      Json.lookup (chatToolOut env msg [(tc.name, r)]).response "tool_results" =
        some (Json.arr [Json.obj [("function", Json.str tc.name),
                                  ("result", r)]])) ∧
    (∀ results, runTools env.rt env.fs env.reply1.message.tool_calls =
        Except.ok results →
      env.reply1.message.tool_calls ≠ [] →
      results.length = env.reply1.message.tool_calls.length ∧
      (∀ i (h1 : i < results.length)
          (h2 : i < env.reply1.message.tool_calls.length),
        (results.get ⟨i, h1⟩).1 =
          (env.reply1.message.tool_calls.get ⟨i, h2⟩).name ∧
        dispatchTool env.rt env.fs
            (env.reply1.message.tool_calls.get ⟨i, h2⟩) =
          Except.ok ((results.get ⟨i, h1⟩).2)) ∧
      chat notify env msg = Except.ok (chatToolOut env msg results)) := by
  refine ⟨?_, ?_, ?_⟩
  · intro h
    unfold chat
    rw [if_pos h]
    refine ⟨rfl, ?_⟩
    intro out hout
    rcases Except.ok.inj hout with rfl
    exact ⟨rfl, rfl⟩
  · intro tc r hcalls hmem hdisp
    have hrun : runTools env.rt env.fs [tc] = Except.ok [(tc.name, r)] := by
      simp only [runTools, hdisp]
    unfold chat
    rw [hcalls, if_neg (by simp), hrun]
    exact ⟨rfl, rfl⟩
  · intro results hrun hne
    obtain ⟨hlen, hpt⟩ := runTools_ok_spec env.rt env.fs _ results hrun
    refine ⟨hlen, hpt, ?_⟩
    unfold chat
    rw [if_neg hne, hrun]
    rfl

/-- Witness for C2: the plain branch on `wEnvPlain`, one `list_containers`
call on `wEnv`, and the two-call environment producing two ordered result
entries. -/
theorem c2_witness :
    (chat wNotify wEnvPlain "ciao?" = Except.ok
        ⟨Json.obj [("response", Json.str "ciao")], none⟩ ∧
      Json.lookup (Json.obj [("response", Json.str "ciao")]) "tool_results" =
        none) ∧
    chat wNotify wEnv "elenca" = Except.ok
      (chatToolOut wEnv "elenca" [("list_containers", wContainersJson)]) ∧
    chat wNotify wEnvTwo "ferma web" = Except.ok
      (chatToolOut wEnvTwo "ferma web"
        [("stop_container",
          Json.str "Errore: 404 Client Error: no such container: web"),
         ("frobnicate", Json.str "Funzione non trovata")]) := by
  have h1 := (c2_chat_tool_results wNotify wEnvPlain "ciao?").1 rfl
  have h2 := (c2_chat_tool_results wNotify wEnv "elenca").2.1
    ⟨"list_containers", []⟩ wContainersJson rfl (by decide) rfl
  have h3 := (c2_chat_tool_results wNotify wEnvTwo "ferma web").2.2
    [("stop_container",
      Json.str "Errore: 404 Client Error: no such container: web"),
     ("frobnicate", Json.str "Funzione non trovata")] rfl (by decide)
  exact ⟨⟨h1.1, (h1.2 _ h1.1).1⟩, h2.1, h3.2.2⟩

/-- Claim C4: the webhook notification's outcome is swallowed — replacing
one webhook sink by any other (failing, unreachable, non-2xx) leaves the
result of `chat` and of `upload_file` unchanged. -/
theorem c4_webhook_failure_ignored (f g : String → Json → Except String Unit)
    (env : ChatEnv) (msg : String) (fs : SharedDir) (N : String)
    (B : List Nat) :
    chat f env msg = chat g env msg ∧
    upload_file f fs N B = upload_file g fs N B :=
  ⟨rfl, rfl⟩

/-- Counterexample to claim C5 as stated: against any registry miss the
dispatch result is the Italian literal "Funzione non trovata", not the
string "function not found". -/
theorem c5_counterexample :
    dispatchTool wRT [] ⟨"frobnicate", []⟩ =
        Except.ok (Json.str "Funzione non trovata") ∧
    ¬ dispatchTool wRT [] ⟨"frobnicate", []⟩ =
        Except.ok (Json.str "function not found") := by
  refine ⟨rfl, ?_⟩
  intro h
  have h0 : Except.ok (Json.str "Funzione non trovata") =
      (Except.ok (Json.str "function not found") : Except String Json) := by
    rw [← h]
    rfl
  have h1 : Json.str "Funzione non trovata" =
      Json.str "function not found" := Except.ok.inj h0
  have h2 : "Funzione non trovata" = "function not found" := by
    injection h1
  exact absurd h2 (by decide)

/-- Claim C5 (amended): a tool-call request whose function name matches no
registry entry yields the literal result string "Funzione non trovata"
(Italian for "function not found") as that call's result entry, and the
chat request still succeeds. -/
theorem c5_unknown_function (notify : String → Json → Except String Unit)
    (env : ChatEnv) (msg : String) (tc : ToolCall)
    (hname : tc.name ∉ registryNames)
    (hcalls : env.reply1.message.tool_calls = [tc]) :
    dispatchTool env.rt env.fs tc =
        Except.ok (Json.str "Funzione non trovata") ∧
    chat notify env msg = Except.ok
      (chatToolOut env msg [(tc.name, Json.str "Funzione non trovata")]) := by
  simp only [registryNames, List.mem_cons, List.not_mem_nil, or_false,
    not_or] at hname
  obtain ⟨hn1, hn2, hn3, hn4⟩ := hname
  have hdisp : dispatchTool env.rt env.fs tc =
      Except.ok (Json.str "Funzione non trovata") := by
    unfold dispatchTool
    rw [if_neg hn1, if_neg hn2, if_neg hn3, if_neg hn4]
  refine ⟨hdisp, ?_⟩
  have hrun : runTools env.rt env.fs [tc] =
      Except.ok [(tc.name, Json.str "Funzione non trovata")] := by
    simp only [runTools, hdisp]
  unfold chat
  rw [hcalls, if_neg (by simp), hrun]
  rfl

/-- Witness for C5 (amended): the unknown name "frobnicate". -/
theorem c5_witness :
    dispatchTool wRT [] ⟨"frobnicate", []⟩ =
        Except.ok (Json.str "Funzione non trovata") ∧
    chat wNotify wEnvUnknown "hi" = Except.ok
      (chatToolOut wEnvUnknown "hi"
        [("frobnicate", Json.str "Funzione non trovata")]) :=
  c5_unknown_function wNotify wEnvUnknown "hi" ⟨"frobnicate", []⟩
    (by decide) rfl

/-- Counterexample to claim C6 as stated: uploading 3 bytes under "a.txt"
succeeds, but the JSON body returned to the caller carries only the message
and the stored path — it mentions no number at all (in particular not the
byte count 3) and has no "size" key; the count appears only in the webhook
payload. -/
theorem c6_counterexample :
    upload_file wNotify [] "a.txt" [7, 7, 7] = Except.ok
      ⟨[("a.txt", Entry.file [7, 7, 7])],
       Json.obj [("filename", Json.str "a.txt"), ("size", Json.num 3),
                 ("path", Json.str "/app/shared/a.txt")],
       Json.obj [("message", Json.str "File a.txt caricato"),
                 ("path", Json.str "/app/shared/a.txt")]⟩ ∧
    Json.hasNum (Json.obj [("message", Json.str "File a.txt caricato"),
        ("path", Json.str "/app/shared/a.txt")]) 3 = false ∧
    Json.lookup (Json.obj [("message", Json.str "File a.txt caricato"),
        ("path", Json.str "/app/shared/a.txt")]) "size" = none :=
  ⟨rfl, rfl, rfl⟩

/-- Claim C6 (amended): a successful upload writes the full byte stream to
`<shared_dir>/N`, overwriting any existing file of that name and leaving
every other name untouched; the response to the caller contains the stored
path (and a message naming the file), while the byte count written appears
in the webhook notification payload, not in the response. -/
theorem c6_upload_semantics (notify : String → Json → Except String Unit)
    (fs : SharedDir) (N : String) (B : List Nat) (out : UploadOut)
    (h : upload_file notify fs N B = Except.ok out) :
    lookupEntry out.fs N = some (Entry.file B) ∧
    (∀ M, M ≠ N → lookupEntry out.fs M = lookupEntry fs M) ∧
    Json.lookup out.response "path" = some (Json.str (sharedPath N)) ∧
    Json.lookup out.response "message" =
      some (Json.str ("File " ++ N ++ " caricato")) ∧
    Json.lookup out.response "size" = none ∧
    (∀ n, Json.hasNum out.response n = false) ∧
    Json.lookup out.payload "size" = some (Json.num B.length) ∧
    Json.lookup out.payload "path" = some (Json.str (sharedPath N)) := by
  rcases upload_file_ok notify fs N B out h with rfl
  refine ⟨?_, ?_, rfl, rfl, rfl, fun n => rfl, rfl, rfl⟩
  · show lookupEntry (setEntry fs N (Entry.file B)) N = _
    rw [lookupEntry_setEntry_self]
  · intro M hM
    show lookupEntry (setEntry fs N (Entry.file B)) M = _
    exact lookupEntry_setEntry_ne fs N M (Entry.file B) hM

/-- Witness for C6 (amended): overwriting an existing "b.txt" next to an
untouched "c.txt". -/
theorem c6_witness :
    lookupEntry [("b.txt", Entry.file [5, 5, 5]), ("c.txt", Entry.file [9])]
        "b.txt" = some (Entry.file [5, 5, 5]) ∧
    lookupEntry [("b.txt", Entry.file [5, 5, 5]), ("c.txt", Entry.file [9])]
        "c.txt" =
      lookupEntry [("b.txt", Entry.file [1, 2]), ("c.txt", Entry.file [9])]
        "c.txt" ∧
    Json.lookup (Json.obj [("message", Json.str "File b.txt caricato"),
        ("path", Json.str "/app/shared/b.txt")]) "path" =
      some (Json.str "/app/shared/b.txt") ∧
    Json.lookup (Json.obj [("message", Json.str "File b.txt caricato"),
        ("path", Json.str "/app/shared/b.txt")]) "size" = none ∧
    Json.hasNum (Json.obj [("message", Json.str "File b.txt caricato"),
        ("path", Json.str "/app/shared/b.txt")]) 3 = false ∧
    Json.lookup (Json.obj [("filename", Json.str "b.txt"),
        ("size", Json.num 3), ("path", Json.str "/app/shared/b.txt")])
        "size" = some (Json.num 3) := by
  have h := c6_upload_semantics wNotify
    [("b.txt", Entry.file [1, 2]), ("c.txt", Entry.file [9])] "b.txt"
    [5, 5, 5]
    ⟨[("b.txt", Entry.file [5, 5, 5]), ("c.txt", Entry.file [9])],
     Json.obj [("filename", Json.str "b.txt"), ("size", Json.num 3),
               ("path", Json.str "/app/shared/b.txt")],
     Json.obj [("message", Json.str "File b.txt caricato"),
               ("path", Json.str "/app/shared/b.txt")]⟩ rfl
  exact ⟨h.1, h.2.1 "c.txt" (by decide), h.2.2.1, h.2.2.2.2.1,
         h.2.2.2.2.2.1 3, h.2.2.2.2.2.2.1⟩

/-- Claim C7: the name under which an uploaded file is stored equals the
caller-supplied filename exactly — the pair `(N, file B)` is in the
directory afterwards, and every entry either has key `N` or was already
present, so no sanitized or transformed name ever appears. -/
theorem c7_no_sanitization (notify : String → Json → Except String Unit)
    (fs : SharedDir) (N : String) (B : List Nat) (out : UploadOut)
    (h : upload_file notify fs N B = Except.ok out) :
    (N, Entry.file B) ∈ out.fs ∧
    ∀ p ∈ out.fs, p.1 = N ∨ p ∈ fs := by
  rcases upload_file_ok notify fs N B out h with rfl
  constructor
  · show _ ∈ setEntry fs N (Entry.file B)
    exact List.mem_cons_self _ _
  · intro p hp
    have hp' : p ∈ setEntry fs N (Entry.file B) := hp
    unfold setEntry at hp'
    rcases List.mem_cons.mp hp' with h1 | h1
    · left; rw [h1]
    · right; exact List.mem_of_mem_filter h1

/-- Witness for C7: a filename with a relative path component is stored
verbatim. -/
theorem c7_witness :
    ("../evil.txt", Entry.file [42]) ∈
      ([("../evil.txt", Entry.file [42])] : SharedDir) ∧
    (("../evil.txt", Entry.file [42]).1 = "../evil.txt" ∨
      ("../evil.txt", Entry.file [42]) ∈ ([] : SharedDir)) := by
  have h := c7_no_sanitization wNotify [] "../evil.txt" [42]
    ⟨[("../evil.txt", Entry.file [42])],
     Json.obj [("filename", Json.str "../evil.txt"), ("size", Json.num 1),
               ("path", Json.str "/app/shared/../evil.txt")],
     Json.obj [("message", Json.str "File ../evil.txt caricato"),
               ("path", Json.str "/app/shared/../evil.txt")]⟩ rfl
  exact ⟨h.1, h.2 ("../evil.txt", Entry.file [42]) h.1⟩

/-- Claim C8: when the first reply requests tool calls (and the dispatch
loop succeeds), the second model call is issued on exactly the three-message
history [user message, first reply message, one role-"tool" message whose
content is `json.dumps` of the ordered results], and that second reply's
textual content is returned as `response` (alongside the raw results). -/
theorem c8_second_call_history (notify : String → Json → Except String Unit)
    (env : ChatEnv) (msg : String) (results : List (String × Json))
    (hne : env.reply1.message.tool_calls ≠ [])
    (hrun : runTools env.rt env.fs env.reply1.message.tool_calls =
      Except.ok results) :
    chat notify env msg = Except.ok
      ⟨Json.obj [("response", Json.str ((env.reply2
            [⟨"user", msg, []⟩, env.reply1.message,
             ⟨"tool", Json.dumps (encodeResults results), []⟩]
          ).message.content)),
          ("tool_results", encodeResults results)],
       some (Json.obj [("event", Json.str "tool_executed"),
                       ("message", Json.str msg),
                       ("results", encodeResults results)])⟩ := by
  unfold chat
  rw [if_neg hne, hrun]
  rfl

/-- Witness for C8: the single `list_containers` call environment; the
second reply ("done") is returned as `response`. -/
theorem c8_witness :
    chat wNotify wEnv "elenca" = Except.ok
      ⟨Json.obj [("response", Json.str ((wEnv.reply2
            [⟨"user", "elenca", []⟩, wEnv.reply1.message,
             ⟨"tool", Json.dumps (encodeResults
                [("list_containers", wContainersJson)]), []⟩]
          ).message.content)),
          ("tool_results",
            encodeResults [("list_containers", wContainersJson)])],
       some (Json.obj [("event", Json.str "tool_executed"),
                       ("message", Json.str "elenca"),
                       ("results", encodeResults
                         [("list_containers", wContainersJson)])])⟩ :=
  c8_second_call_history wNotify wEnv "elenca"
    [("list_containers", wContainersJson)] (by decide) rfl

end DockerAgent
